import Mathlib

/-!
Verification development for the trackmate embedding/similarity engine
(`app/services/clip_services.py`, `app/api/v1/clip.py`,
`app/models/*.py`), shallowly embedded in Lean 4.

Modelling conventions:
* vectors are `List ℚ`; the square root inside `np.linalg.norm` is an
  uninterpreted oracle `sqrtO : ℚ → ℚ` carried by the service record;
* the external CLIP encoders are oracle functions returning
  `Except String (List ℚ)` (an `Except.error` models a raised exception);
* JSON-string columns holding vectors are modelled as
  `Option (List ℚ)` (serialisation round-trips exactly);
* timestamps are integers counted in days, matching the `.days`
  granularity used by `_calculate_time_bonus`;
* the SQLAlchemy session is modelled by explicit state passing: a
  function that commits returns an updated `DB`, a function that rolls
  back returns the input `DB` unchanged.
-/

/-- Sum of pointwise products, the model of `np.dot` on equal-length
vectors. -/
def vdot (a b : List ℚ) : ℚ := (List.zipWith (fun x y => x * y) a b).sum

/-- Scalar multiple of a vector. -/
def vscale (c : ℚ) (v : List ℚ) : List ℚ := v.map (fun x => c * x)

/-- Pointwise sum of two vectors. -/
def vadd (a b : List ℚ) : List ℚ := List.zipWith (fun x y => x + y) a b

/-- Sum of a nonempty list of vectors (empty list gives `[]`). -/
def vsum : List (List ℚ) → List ℚ
  | [] => []
  | v :: vs => vs.foldl vadd v

/-- Arithmetic mean of a list of vectors, the model of
`np.mean(vecs, axis=0)`. -/
def vmean (vs : List (List ℚ)) : List ℚ := vscale (1 / (vs.length : ℚ)) (vsum vs)

/-- Model of `v / np.linalg.norm(v)` with the square root abstracted:
`np.linalg.norm v = sqrtO (Σ xᵢ²)`. -/
def vnormalize (sqrtO : ℚ → ℚ) (v : List ℚ) : List ℚ :=
  v.map (fun x => x / sqrtO (vdot v v))

/-- Model of `CLIPService.cosine_similarity`
(`clip_services.py:93-101`): `dot(a,b) / (norm a * norm b)`. -/
def cosine_similarity (sqrtO : ℚ → ℚ) (a b : List ℚ) : ℚ :=
  vdot a b / (sqrtO (vdot a a) * sqrtO (vdot b b))

/-- An item row (`LostItem` / `FoundItem`, structurally identical;
`lost_item.py` / `found_item.py`).  `location` models the variant's
`location_lost` / `location_found` column. -/
structure Item where
  id : Nat
  title : String
  description : String
  category : String
  location : String
  status : String
  user_id : Nat
  description_embedding : Option (List ℚ)
  image_embedding : Option (List ℚ)
  combined_embedding : Option (List ℚ)
  embedding_model : Option String
  embedding_version : Option String
  has_images : Bool
  created_at : Int
  updated_at : Int
deriving DecidableEq

/-- An image row (`image_model.py`). -/
structure Image where
  id : Nat
  file_path : String
  item_type : String
  item_id : Nat
  image_embedding : Option (List ℚ)
  embedding_model : Option String
  embedding_status : String
  processing_error : Option String
  processing_attempts : Nat
deriving DecidableEq

/-- A `SimilarityMatch` row (`similarity_match.py`); only the fields the
claims mention are carried. -/
structure SimilarityMatch where
  id : Nat
  status : String
  reviewed_by : Option Nat
  review_notes : Option String
  updated_at : Int
deriving DecidableEq

/-- The database state: the four tables touched by the engine. -/
structure DB where
  lost : List Item
  found : List Item
  images : List Image
  sim_matches : List SimilarityMatch
deriving DecidableEq

/-- One call made to the external Embedding Provider (instrumentation
recording the `encode_text` / `encode_image_file` invocations). -/
inductive ProviderCall where
  | text (s : String)
  | image (path : String)
deriving DecidableEq

/-- The CLIP service with its external capabilities: the model name,
the two encoders (which may raise, modelled by `Except.error`), and the
abstracted square root used by `np.linalg.norm`. -/
structure CLIPService where
  modelName : String
  encodeText : String → Except String (List ℚ)
  encodeImage : String → Except String (List ℚ)
  sqrtO : ℚ → ℚ

/-- The dictionary returned by `generate_item_embeddings`. -/
structure EmbedResult where
  success : Bool
  model : String
  has_text : Bool
  has_image : Bool
  has_combined : Bool
  error : Option String
  message : Option String
deriving DecidableEq

/-- Outcome of one `generate_item_embeddings` call: the returned
dictionary, the final state of the item object and of its attached
image rows, the database after commit/rollback, and the list of
provider calls made (instrumentation). -/
structure EmbedOutcome where
  res : EmbedResult
  item : Item
  images : List Image
  db : DB
  calls : List ProviderCall

/-- The image rows attached to an item
(`clip_services.py:129-132`). -/
def attached_images (db : DB) (item_id : Nat) (item_type : String) : List Image :=
  db.images.filter (fun im => im.item_id == item_id && im.item_type == item_type)

/-- One iteration of the image loop (`clip_services.py:136-149`):
on success the row gets the vector, status `processed` and the model
name; on failure the row gets status `failed` and the stored error. -/
def image_step (svc : CLIPService) (img : Image) : Image × Option (List ℚ) :=
  match svc.encodeImage img.file_path with
  | .ok v =>
      ({ img with image_embedding := some v
                  embedding_status := "processed"
                  embedding_model := some svc.modelName }, some v)
  | .error e =>
      ({ img with embedding_status := "failed"
                  processing_error := some e }, none)

/-- Final state of all attached image rows after the loop. -/
def processed_images (svc : CLIPService) (imgs : List Image) : List Image :=
  imgs.map (fun im => (image_step svc im).1)

/-- The `image_embeddings` list accumulated by the loop: the vectors of
the successfully encoded images, in order. -/
def successful_vecs (svc : CLIPService) (imgs : List Image) : List (List ℚ) :=
  imgs.filterMap (fun im => (image_step svc im).2)

/-- The item-state updates of `clip_services.py:126,151-176`: store the
text embedding, average the successful image vectors (if any), build the
combined embedding per the weighted-combination rule, and stamp the
metadata. -/
def embed_item (svc : CLIPService) (item : Item) (t : List ℚ)
    (ivecs : List (List ℚ)) (now : Int) : Item :=
  let item1 := { item with description_embedding := some t }
  let item2 :=
    if ivecs.isEmpty then item1
    else { item1 with image_embedding := some (vmean ivecs), has_images := true }
  let item3 :=
    match item2.image_embedding with
    | some iv =>
        let comb := vnormalize svc.sqrtO (vadd (vscale 0.4 t) (vscale 0.6 iv))
        { item2 with combined_embedding := some comb }
    | none => { item2 with combined_embedding := item2.description_embedding }
  { item3 with embedding_model := some svc.modelName
               embedding_version := some "1.0"
               updated_at := now }

/-- Model of `db.commit()` at `clip_services.py:178`: persist the
updated item row (in the table selected by `item_type`) and the updated
image rows. -/
def commit_item (db : DB) (item_type : String) (it : Item)
    (imgs : List Image) : DB :=
  let repl := fun (xs : List Item) => xs.map (fun x => if x.id == it.id then it else x)
  { db with
    lost := if item_type == "lost" then repl db.lost else db.lost
    found := if item_type == "found" then repl db.found else db.found
    images := db.images.map (fun im =>
      match imgs.find? (fun j => j.id == im.id) with
      | some j => j
      | none => im) }

/-- Model of `CLIPService.generate_item_embeddings`
(`clip_services.py:103-198`).  The `try`/`except` around the whole body
is modelled by the `Except` results of the oracles: the only uncaught
failure point is text encoding, and it yields the rollback branch
(`db` returned unchanged, `success=False` with the error message). -/
def generate_item_embeddings (svc : CLIPService) (item : Item)
    (item_type : String) (db : DB) (force_regenerate : Bool)
    (now : Int) : EmbedOutcome :=
  if !force_regenerate && item.combined_embedding.isSome then
    { res := { success := true, model := svc.modelName
               has_text := item.description_embedding.isSome
               has_image := item.image_embedding.isSome
               has_combined := item.combined_embedding.isSome
               error := none, message := some "Embeddings already exist" }
      item := item
      images := attached_images db item.id item_type
      db := db
      calls := [] }
  else
    match svc.encodeText item.description with
    | .error e =>
        { res := { success := false, model := svc.modelName
                   has_text := false, has_image := false
                   has_combined := false
                   error := some e, message := none }
          item := item
          images := attached_images db item.id item_type
          db := db
          calls := [ProviderCall.text item.description] }
    | .ok t =>
        let imgs := attached_images db item.id item_type
        let newImgs := processed_images svc imgs
        let ivecs := successful_vecs svc imgs
        let newItem := embed_item svc item t ivecs now
        { res := { success := true, model := svc.modelName
                   has_text := true
                   has_image := newItem.image_embedding.isSome
                   has_combined := true
                   error := none, message := none }
          item := newItem
          images := newImgs
          db := commit_item db item_type newItem newImgs
          calls := ProviderCall.text item.description ::
            imgs.map (fun im => ProviderCall.image im.file_path) }

/-- Characters of a string mapped to lower case, the model of Python's
`str.lower()` (ASCII fragment). -/
def lowerStr (s : String) : List Char := s.data.map Char.toLower

/-- Model of `List.isPrefixOf` on characters (needle begins the
haystack). -/
def isPrefixList : List Char → List Char → Bool
  | [], _ => true
  | _ :: _, [] => false
  | a :: as, b :: bs => a == b && isPrefixList as bs

/-- Contiguous-substring test, the model of Python's `word in s`. -/
def isInfixList (n : List Char) : List Char → Bool
  | [] => n.isEmpty
  | c :: t => isPrefixList n (c :: t) || isInfixList n t

/-- Accumulator-based whitespace splitter. -/
def splitWsAux : List Char → List Char → List (List Char)
  | [], acc => if acc.isEmpty then [] else [acc.reverse]
  | c :: cs, acc =>
    if c.isWhitespace then
      (if acc.isEmpty then splitWsAux cs [] else acc.reverse :: splitWsAux cs [])
    else splitWsAux cs (c :: acc)

/-- Model of Python's `str.split()`: split on whitespace runs,
dropping empty tokens. -/
def splitWs (cs : List Char) : List (List Char) := splitWsAux cs []

/-- Model of `CLIPService._calculate_location_bonus`
(`clip_services.py:285-298`): 1.2 on equal lowercased locations, 1.1
when some whitespace token of one lowercased location is a contiguous
substring of the other, 1.0 otherwise. -/
def _calculate_location_bonus (item1 item2 : Item) : ℚ :=
  let loc1 := lowerStr item1.location
  let loc2 := lowerStr item2.location
  if loc1 == loc2 then 12/10
  else if (splitWs loc1).any (fun w => isInfixList w loc2) ||
          (splitWs loc2).any (fun w => isInfixList w loc1) then 11/10
  else 1

/-- Model of `CLIPService._calculate_time_bonus`
(`clip_services.py:300-313`); `now` and `created_at` are in days, so
`now - created_at` models `(datetime.now() - item.created_at).days`. -/
def _calculate_time_bonus (now : Int) (item : Item) : ℚ :=
  let days_old := now - item.created_at
  if days_old ≤ 1 then 12/10
  else if days_old ≤ 7 then 11/10
  else if days_old ≤ 30 then 1
  else 9/10

/-- One entry of the list returned by `find_similar_items`
(`clip_services.py:261-275`). -/
structure MatchEntry where
  item_id : Nat
  item_type : String
  title : String
  description : String
  category : String
  location : String
  similarity_score : ℚ
  confidence_level : ℚ
  match_type : String
  location_bonus : Option ℚ
  time_bonus : Option ℚ
  date_created : Int
  image_count : Nat
deriving DecidableEq

/-- The target tables scanned by `find_similar_items`
(`clip_services.py:219-224`), in scan order. -/
def target_tables (db : DB) (query_type : String)
    (target_type : Option String) : List (List Item × String) :=
  (if target_type == some "lost" || (target_type == none && query_type == "found")
   then [(db.lost, "lost")] else []) ++
  (if target_type == some "found" || (target_type == none && query_type == "lost")
   then [(db.found, "found")] else [])

/-- The candidates actually iterated and scored: per table, the rows
with a combined embedding and `active` status (`clip_services.py:228-231`),
minus the query item itself when the table type equals the query type
(`clip_services.py:234-236`), tagged with the table type. -/
def scanned_candidates (query_item : Item) (query_type : String)
    (target_type : Option String) (db : DB) : List (Item × String) :=
  (target_tables db query_type target_type).flatMap (fun p =>
    ((p.1.filter (fun it => it.combined_embedding.isSome && it.status == "active")).filter
      (fun it => !(it.id == query_item.id && p.2 == query_type))).map (fun it => (it, p.2)))

/-- The match dictionary built for one candidate that cleared the
threshold (`clip_services.py:244-275`). -/
def score_candidate (svc : CLIPService) (now : Int) (query_item : Item)
    (query_embedding : List ℚ) (include_location_boost include_time_boost : Bool)
    (db : DB) (p : Item × String) : MatchEntry :=
  let similarity := cosine_similarity svc.sqrtO query_embedding
    (p.1.combined_embedding.getD [])
  let location_bonus :=
    if include_location_boost then _calculate_location_bonus query_item p.1 else 1
  let time_bonus := if include_time_boost then _calculate_time_bonus now p.1 else 1
  { item_id := p.1.id
    item_type := p.2
    title := p.1.title
    description := p.1.description
    category := p.1.category
    location := p.1.location
    similarity_score := similarity
    confidence_level := similarity * location_bonus * time_bonus
    match_type := "combined_similarity"
    location_bonus := if include_location_boost then some location_bonus else none
    time_bonus := if include_time_boost then some time_bonus else none
    date_created := p.1.created_at
    image_count := (db.images.filter (fun im =>
      im.item_id == p.1.id && im.item_type == p.2)).length }

/-- The `matches` list accumulated by the scan loop, in scan order:
only candidates with `similarity >= threshold` are scored and appended
(`clip_services.py:233-275`). -/
def scored_matches (svc : CLIPService) (now : Int) (query_item : Item)
    (query_embedding : List ℚ) (query_type : String) (target_type : Option String)
    (threshold : ℚ) (include_location_boost include_time_boost : Bool)
    (db : DB) : List MatchEntry :=
  (scanned_candidates query_item query_type target_type db).filterMap (fun p =>
    let m := score_candidate svc now query_item query_embedding
      include_location_boost include_time_boost db p
    if threshold ≤ m.similarity_score then some m else none)

/-- Sort order of the final `matches.sort(key=confidence_level,
reverse=True)`: a match may precede another when its confidence is at
least as large; a stable insertion sort under this relation is exactly
Python's stable descending sort. -/
def byConfidence (a b : MatchEntry) : Prop :=
  b.confidence_level ≤ a.confidence_level

instance : DecidableRel byConfidence := fun a b =>
  inferInstanceAs (Decidable (b.confidence_level ≤ a.confidence_level))

instance : IsTotal MatchEntry byConfidence :=
  ⟨fun a b => le_total b.confidence_level a.confidence_level⟩

instance : IsTrans MatchEntry byConfidence :=
  ⟨fun _ _ _ h1 h2 => le_trans h2 h1⟩

/-- Model of `CLIPService.find_similar_items`
(`clip_services.py:200-283`): raise on a query item without an
embedding, otherwise scan, threshold-filter, score, sort descending by
confidence (stable) and truncate.  The returned `DB` is the database
state after the call. -/
def find_similar_items (svc : CLIPService) (now : Int) (query_item : Item)
    (query_type : String) (db : DB) (target_type : Option String)
    (threshold : ℚ) (max_results : Nat)
    (include_location_boost include_time_boost : Bool) :
    Except String (List MatchEntry) × DB :=
  match query_item.combined_embedding with
  | none => (.error "Query item has no embeddings", db)
  | some query_embedding =>
    let ms := scored_matches svc now query_item query_embedding query_type
      target_type threshold include_location_boost include_time_boost db
    (.ok ((ms.insertionSort byConfidence).take max_results), db)

/-- The per-item response of the embeddings API (`clip_schemas`,
used by `clip.py:58-82`); the wall-clock `processing_time` field is
not modelled. -/
structure EmbeddingResponse where
  item_id : Nat
  item_type : String
  success : Bool
  embedding_model : String
  has_text_embedding : Bool
  has_image_embedding : Bool
  has_combined_embedding : Bool
  error_message : Option String
deriving DecidableEq

/-- The aggregate response of the batch endpoint (`clip.py:303-309`). -/
structure BatchEmbeddingResponse where
  total_items : Nat
  successful : Nat
  failed : Nat
  results : List EmbeddingResponse
deriving DecidableEq

/-- The failure response built in the batch loop's `except` branch
(`clip.py:289-299`). -/
def failed_response (item_id : Nat) (item_type : String) (e : String) :
    EmbeddingResponse :=
  { item_id := item_id
    item_type := item_type
    success := false
    embedding_model := ""
    has_text_embedding := false
    has_image_embedding := false
    has_combined_embedding := false
    error_message := some e }

/-- Outcome of one iteration of the batch loop: the per-item call may
raise (modelled by `Except.error`), in which case the `except` branch
converts it into a failure response carrying the error text. -/
def batch_step (step : Nat → Except String EmbeddingResponse)
    (item_type : String) (id : Nat) : EmbeddingResponse :=
  match step id with
  | .ok r => r
  | .error e => failed_response id item_type e

/-- The batch loop of `clip.py:271-299` with its three accumulators
(`results`, `successful`, `failed`). -/
def batch_loop (step : Nat → Except String EmbeddingResponse)
    (item_type : String) :
    List Nat → List EmbeddingResponse → Nat → Nat →
    List EmbeddingResponse × Nat × Nat
  | [], acc, s, f => (acc, s, f)
  | id :: rest, acc, s, f =>
    match step id with
    | .ok r =>
        batch_loop step item_type rest (acc ++ [r])
          (if r.success then s + 1 else s) (if r.success then f else f + 1)
    | .error e =>
        batch_loop step item_type rest (acc ++ [failed_response id item_type e])
          s (f + 1)

/-- Model of `generate_batch_embeddings` (`clip.py:258-309`),
parameterised over the per-item call `step` (the inner
`generate_embeddings` endpoint call, whose possible exception is what
the loop's `except` catches). -/
def generate_batch_embeddings (step : Nat → Except String EmbeddingResponse)
    (item_ids : List Nat) (item_type : String) : BatchEmbeddingResponse :=
  let out := batch_loop step item_type item_ids [] 0 0
  { total_items := item_ids.length
    successful := out.2.1
    failed := out.2.2
    results := out.1 }

/-- Clearing of the embedding columns performed by the bulk `update`
of the cleanup endpoint (`clip.py:358-376`). -/
def clear_embeddings (it : Item) : Item :=
  { it with description_embedding := none
            image_embedding := none
            combined_embedding := none
            embedding_model := none
            embedding_version := none }

/-- The row predicate of the cleanup `filter`
(`clip.py:356-357,367-369`): older than the cutoff and currently
holding a combined embedding. -/
def stale_pred (cutoff : Int) (it : Item) : Bool :=
  decide (it.updated_at < cutoff) && it.combined_embedding.isSome

/-- One bulk `update` pass over a table: clear the matching rows,
return the new table and the matched-row count that SQLAlchemy's
`update` reports. -/
def bulk_clear (cutoff : Int) (items : List Item) : List Item × Nat :=
  (items.map (fun it => if stale_pred cutoff it then clear_embeddings it else it),
   (items.filter (stale_pred cutoff)).length)

/-- Model of `cleanup_old_embeddings` (`clip.py:345-384`): one bulk
clear per item variant, then commit; returns the updated database and
the two reported row counts. -/
def cleanup_old_embeddings (db : DB) (older_than_days : Int) (now : Int) :
    DB × Nat × Nat :=
  let cutoff := now - older_than_days
  let lostPass := bulk_clear cutoff db.lost
  let foundPass := bulk_clear cutoff db.found
  ({ db with lost := lostPass.1, found := foundPass.1 }, lostPass.2, foundPass.2)

/-- Location bonus as claim C2 words it (token overlap): 1.2 on an
exact case-insensitive match, 1.1 when the two lowercased location
strings share a whitespace token, 1.0 otherwise.  Stated from the
claim's words, for comparison against `_calculate_location_bonus`. -/
def location_bonus_token_overlap (a b : String) : ℚ :=
  let la := lowerStr a
  let lb := lowerStr b
  if la == lb then 12/10
  else if (splitWs la).any (fun w => (splitWs lb).contains w) then 11/10
  else 1

/-- Location bonus as amended: 1.2 on an exact case-insensitive match,
1.1 when some whitespace token of one lowercased location string is a
contiguous substring of the other lowercased location string, 1.0
otherwise. -/
def location_bonus_substring_overlap (a b : String) : ℚ :=
  let la := lowerStr a
  let lb := lowerStr b
  if la == lb then 12/10
  else if (splitWs la).any (fun w => isInfixList w lb) ||
          (splitWs lb).any (fun w => isInfixList w la) then 11/10
  else 1

/-- Time bonus as the claim words it, as a function of the candidate
age in days. -/
def time_bonus_age (age : Int) : ℚ :=
  if age ≤ 1 then 12/10
  else if age ≤ 7 then 11/10
  else if age ≤ 30 then 1
  else 9/10

/-- A lost item with no embeddings, used as a concrete test fixture. -/
def exItemBase : Item :=
  { id := 1, title := "wallet", description := "black wallet"
    category := "accessories", location := "hall", status := "active"
    user_id := 7
    description_embedding := none, image_embedding := none
    combined_embedding := none, embedding_model := none
    embedding_version := none, has_images := false
    created_at := 0, updated_at := 0 }

/-- The same item after a successful embedding pass. -/
def exItemWithComb : Item :=
  { exItemBase with description_embedding := some [1, 0]
                    combined_embedding := some [1, 0] }

/-- A service whose oracles always succeed. -/
def exSvcOk : CLIPService :=
  { modelName := "ViT-B/32"
    encodeText := fun _ => Except.ok [1, 0]
    encodeImage := fun _ => Except.ok [0, 1]
    sqrtO := id }

/-- A service whose text encoder raises. -/
def exSvcTextFail : CLIPService :=
  { exSvcOk with encodeText := fun _ => Except.error "text encoding failed" }

/-- A service whose image encoder raises. -/
def exSvcImageFail : CLIPService :=
  { exSvcOk with encodeImage := fun _ => Except.error "image encoding failed" }

/-- An unprocessed image row attached to item 1. -/
def exImage1 : Image :=
  { id := 1, file_path := "a.jpg", item_type := "lost", item_id := 1
    image_embedding := none, embedding_model := none
    embedding_status := "active", processing_error := none
    processing_attempts := 0 }

/-- A database with one lost item and one attached image. -/
def exDb1 : DB :=
  { lost := [exItemBase], found := [], images := [exImage1], sim_matches := [] }

/-- C4: when `combined_embedding` is already present and
`force_regenerate` is false, `generate_item_embeddings` reports success
immediately: no Embedding Provider call is made, the database, the item
and its image rows are all returned unchanged. -/
theorem C4_idempotent_short_circuit (svc : CLIPService) (item : Item)
    (ty : String) (db : DB) (now : Int)
    (h : item.combined_embedding.isSome = true) :
    (generate_item_embeddings svc item ty db false now).res.success = true ∧
    (generate_item_embeddings svc item ty db false now).db = db ∧
    (generate_item_embeddings svc item ty db false now).calls = [] ∧
    (generate_item_embeddings svc item ty db false now).item = item ∧
    (generate_item_embeddings svc item ty db false now).images =
      attached_images db item.id ty := by
  simp [generate_item_embeddings, h]

theorem C4_witness :
    exItemWithComb.combined_embedding.isSome = true ∧
    (generate_item_embeddings exSvcOk exItemWithComb "lost" exDb1 false 9).db = exDb1 ∧
    (generate_item_embeddings exSvcOk exItemWithComb "lost" exDb1 false 9).calls = [] :=
  ⟨rfl,
   (C4_idempotent_short_circuit exSvcOk exItemWithComb "lost" exDb1 9 rfl).2.1,
   (C4_idempotent_short_circuit exSvcOk exItemWithComb "lost" exDb1 9 rfl).2.2.1⟩

/-- C6: `generate_item_embeddings` is a total function of its inputs
(it never propagates an exception); whenever it reports failure it
reports an error message and returns the database exactly as it was
(all pending writes of the failed call are discarded), and a text
encoding failure on the main path produces exactly that failure
report. -/
theorem C6_failure_atomic (svc : CLIPService) (item : Item) (ty : String)
    (db : DB) (force : Bool) (now : Int) :
    ((generate_item_embeddings svc item ty db force now).res.success = false →
      (generate_item_embeddings svc item ty db force now).db = db ∧
      (generate_item_embeddings svc item ty db force now).res.error.isSome = true) ∧
    ((!force && item.combined_embedding.isSome) = false →
      ∀ e, svc.encodeText item.description = Except.error e →
        (generate_item_embeddings svc item ty db force now).res.success = false ∧
        (generate_item_embeddings svc item ty db force now).res.error = some e ∧
        (generate_item_embeddings svc item ty db force now).db = db) := by
  constructor
  · intro hfail
    unfold generate_item_embeddings at *
    by_cases hsc : (!force && item.combined_embedding.isSome) = true
    · simp [hsc] at hfail
    · rcases htext : svc.encodeText item.description with e | t
      · simp [hsc, htext]
      · simp [hsc, htext] at hfail
  · intro hsc e htext
    unfold generate_item_embeddings
    simp [hsc, htext]

theorem C6_witness :
    (!false && exItemBase.combined_embedding.isSome) = false ∧
    exSvcTextFail.encodeText exItemBase.description =
      Except.error "text encoding failed" ∧
    (generate_item_embeddings exSvcTextFail exItemBase "lost" exDb1 false 9).res.success = false ∧
    (generate_item_embeddings exSvcTextFail exItemBase "lost" exDb1 false 9).res.error =
      some "text encoding failed" ∧
    (generate_item_embeddings exSvcTextFail exItemBase "lost" exDb1 false 9).db = exDb1 :=
  ⟨rfl, rfl,
   ((C6_failure_atomic exSvcTextFail exItemBase "lost" exDb1 false 9).2 rfl
     "text encoding failed" rfl).1,
   ((C6_failure_atomic exSvcTextFail exItemBase "lost" exDb1 false 9).2 rfl
     "text encoding failed" rfl).2.1,
   ((C6_failure_atomic exSvcTextFail exItemBase "lost" exDb1 false 9).2 rfl
     "text encoding failed" rfl).2.2⟩

/-- C10: `find_similar_items` modifies no stored state: the database
it returns is the one it was given, so every item, image and
`SimilarityMatch` row is unchanged and no match record is created. -/
theorem C10_find_similar_items_readonly (svc : CLIPService) (now : Int)
    (q : Item) (qt : String) (db : DB) (tt : Option String) (thr : ℚ)
    (maxr : Nat) (lb tb : Bool) :
    (find_similar_items svc now q qt db tt thr maxr lb tb).2 = db ∧
    (find_similar_items svc now q qt db tt thr maxr lb tb).2.sim_matches =
      db.sim_matches ∧
    (find_similar_items svc now q qt db tt thr maxr lb tb).2.lost = db.lost ∧
    (find_similar_items svc now q qt db tt thr maxr lb tb).2.found = db.found ∧
    (find_similar_items svc now q qt db tt thr maxr lb tb).2.images = db.images := by
  unfold find_similar_items
  rcases q.combined_embedding with _ | qe <;> simp

/-- C9: `cleanup_old_embeddings` clears exactly the item rows (of both
variants) that are older than `now - older_than_days` and currently
hold a combined embedding: such rows lose precisely the three embedding
vectors plus model/version metadata and keep every other field; rows
failing either predicate are untouched; images and `SimilarityMatch`
records are not modified; the reported counts are the numbers of
matching rows. -/
theorem C9_cleanup_exact (db : DB) (d now : Int) :
    (∀ it : Item, stale_pred (now - d) it = true ↔
      (it.updated_at < now - d ∧ it.combined_embedding ≠ none)) ∧
    (∀ it : Item,
      (clear_embeddings it).description_embedding = none ∧
      (clear_embeddings it).image_embedding = none ∧
      (clear_embeddings it).combined_embedding = none ∧
      (clear_embeddings it).embedding_model = none ∧
      (clear_embeddings it).embedding_version = none ∧
      (clear_embeddings it).id = it.id ∧
      (clear_embeddings it).title = it.title ∧
      (clear_embeddings it).description = it.description ∧
      (clear_embeddings it).category = it.category ∧
      (clear_embeddings it).location = it.location ∧
      (clear_embeddings it).status = it.status ∧
      (clear_embeddings it).user_id = it.user_id ∧
      (clear_embeddings it).has_images = it.has_images ∧
      (clear_embeddings it).created_at = it.created_at ∧
      (clear_embeddings it).updated_at = it.updated_at) ∧
    (∀ i : Nat, ∀ it : Item, db.lost[i]? = some it →
      ((stale_pred (now - d) it = true →
        (cleanup_old_embeddings db d now).1.lost[i]? = some (clear_embeddings it)) ∧
       (stale_pred (now - d) it = false →
        (cleanup_old_embeddings db d now).1.lost[i]? = some it))) ∧
    (∀ i : Nat, ∀ it : Item, db.found[i]? = some it →
      ((stale_pred (now - d) it = true →
        (cleanup_old_embeddings db d now).1.found[i]? = some (clear_embeddings it)) ∧
       (stale_pred (now - d) it = false →
        (cleanup_old_embeddings db d now).1.found[i]? = some it))) ∧
    (cleanup_old_embeddings db d now).1.lost.length = db.lost.length ∧
    (cleanup_old_embeddings db d now).1.found.length = db.found.length ∧
    (cleanup_old_embeddings db d now).1.images = db.images ∧
    (cleanup_old_embeddings db d now).1.sim_matches = db.sim_matches ∧
    (cleanup_old_embeddings db d now).2.1 =
      (db.lost.filter (stale_pred (now - d))).length ∧
    (cleanup_old_embeddings db d now).2.2 =
      (db.found.filter (stale_pred (now - d))).length := by
  refine ⟨?_, ?_, ?_, ?_, ?_, ?_, ?_, ?_, ?_, ?_⟩
  · intro it
    simp [stale_pred, Option.isSome_iff_ne_none]
  · intro it
    simp [clear_embeddings]
  · intro i it hgt
    constructor <;> intro hs <;>
      simp [cleanup_old_embeddings, bulk_clear, List.getElem?_map, hgt, hs]
  · intro i it hgt
    constructor <;> intro hs <;>
      simp [cleanup_old_embeddings, bulk_clear, List.getElem?_map, hgt, hs]
  · simp [cleanup_old_embeddings, bulk_clear]
  · simp [cleanup_old_embeddings, bulk_clear]
  · simp [cleanup_old_embeddings, bulk_clear]
  · simp [cleanup_old_embeddings, bulk_clear]
  · simp [cleanup_old_embeddings, bulk_clear]
  · simp [cleanup_old_embeddings, bulk_clear]

/-- A stale item: old `updated_at`, embedding present. -/
def exStaleItem : Item :=
  { exItemWithComb with id := 3, updated_at := 0 }

/-- A fresh item: recent `updated_at`, embedding present. -/
def exFreshItem : Item :=
  { exItemWithComb with id := 4, updated_at := 90 }

/-- Database fixture for the cleanup claim. -/
def exDb9 : DB :=
  { lost := [exStaleItem, exFreshItem], found := [], images := [exImage1]
    sim_matches := [{ id := 1, status := "pending", reviewed_by := none
                      review_notes := none, updated_at := 0 }] }

theorem C9_witness :
    exDb9.lost[0]? = some exStaleItem ∧
    stale_pred (100 - 30) exStaleItem = true ∧
    stale_pred (100 - 30) exFreshItem = false ∧
    (cleanup_old_embeddings exDb9 30 100).1.lost[0]? =
      some (clear_embeddings exStaleItem) ∧
    (cleanup_old_embeddings exDb9 30 100).1.lost[1]? = some exFreshItem ∧
    (cleanup_old_embeddings exDb9 30 100).1.sim_matches = exDb9.sim_matches :=
  ⟨rfl, rfl, rfl,
   ((C9_cleanup_exact exDb9 30 100).2.2.1 0 exStaleItem rfl).1 rfl,
   ((C9_cleanup_exact exDb9 30 100).2.2.1 1 exFreshItem rfl).2 rfl,
   (C9_cleanup_exact exDb9 30 100).2.2.2.2.2.2.2.1⟩

/-- A list's length is the count of elements satisfying a predicate
plus the count of elements falsifying it. -/
theorem countP_add_countP_neg {α : Type} (l : List α) (p : α → Bool) :
    l.countP p + l.countP (fun a => !p a) = l.length := by
  induction l with
  | nil => simp
  | cons a t ih => rcases h : p a with _ | _ <;> simp [List.countP_cons, h] <;> omega

/-- Unfolded shape of the batch loop: it visits the ids in input order,
appending one response per id (the caught-exception branch substitutes
the failure response), and counts successes and failures. -/
theorem batch_loop_spec (step : Nat → Except String EmbeddingResponse)
    (ty : String) (ids : List Nat) (acc : List EmbeddingResponse) (s f : Nat) :
    batch_loop step ty ids acc s f =
      (acc ++ ids.map (batch_step step ty),
       s + (ids.map (batch_step step ty)).countP (fun r => r.success),
       f + (ids.map (batch_step step ty)).countP (fun r => !r.success)) := by
  induction ids generalizing acc s f with
  | nil => simp [batch_loop]
  | cons id rest ih =>
    rcases hstep : step id with e | r
    · simp only [batch_loop, hstep]
      rw [ih]
      simp [batch_step, hstep, failed_response, List.countP_cons]
      omega
    · simp only [batch_loop, hstep]
      rw [ih]
      rcases hr : r.success with _ | _ <;>
        simp [batch_step, hstep, hr, List.countP_cons] <;> omega

/-- C8: the batch endpoint produces one per-item result per input id in
input order; an exception raised by the per-item call for one id is
converted into a failure response carrying the error text (processing
continues with the remaining ids); and the reported counters satisfy
`successful + failed = total = len(item_ids)`, each counter being the
exact count of per-item outcomes. -/
theorem C8_batch_counters (step : Nat → Except String EmbeddingResponse)
    (ids : List Nat) (ty : String) :
    (generate_batch_embeddings step ids ty).results = ids.map (batch_step step ty) ∧
    (generate_batch_embeddings step ids ty).total_items = ids.length ∧
    (generate_batch_embeddings step ids ty).successful =
      (generate_batch_embeddings step ids ty).results.countP (fun r => r.success) ∧
    (generate_batch_embeddings step ids ty).failed =
      (generate_batch_embeddings step ids ty).results.countP (fun r => !r.success) ∧
    (generate_batch_embeddings step ids ty).successful +
      (generate_batch_embeddings step ids ty).failed =
      (generate_batch_embeddings step ids ty).total_items ∧
    (∀ id e, step id = Except.error e →
      batch_step step ty id = failed_response id ty e) := by
  have hloop := batch_loop_spec step ty ids [] 0 0
  refine ⟨?_, ?_, ?_, ?_, ?_, ?_⟩
  · simp [generate_batch_embeddings, hloop]
  · simp [generate_batch_embeddings]
  · simp [generate_batch_embeddings, hloop]
  · simp [generate_batch_embeddings, hloop]
  · simp only [generate_batch_embeddings, hloop]
    rw [← List.length_map ids (batch_step step ty)]
    have := countP_add_countP_neg (ids.map (batch_step step ty))
      (fun r => r.success)
    omega
  · intro id e hstep
    simp [batch_step, hstep]

/-- A successful per-item response for the batch fixture. -/
def exOkResponse (i : Nat) : EmbeddingResponse :=
  { item_id := i, item_type := "lost", success := true
    embedding_model := "ViT-B/32", has_text_embedding := true
    has_image_embedding := false, has_combined_embedding := true
    error_message := none }

/-- A per-item step that raises on id 11 and succeeds elsewhere. -/
def exStep (i : Nat) : Except String EmbeddingResponse :=
  if i = 11 then Except.error "boom" else Except.ok (exOkResponse i)

theorem C8_witness :
    exStep 11 = Except.error "boom" ∧
    batch_step exStep "lost" 11 = failed_response 11 "lost" "boom" ∧
    (generate_batch_embeddings exStep [10, 11, 12] "lost").results =
      [exOkResponse 10, failed_response 11 "lost" "boom", exOkResponse 12] ∧
    (generate_batch_embeddings exStep [10, 11, 12] "lost").successful +
      (generate_batch_embeddings exStep [10, 11, 12] "lost").failed =
      (generate_batch_embeddings exStep [10, 11, 12] "lost").total_items :=
  ⟨rfl,
   (C8_batch_counters exStep [10, 11, 12] "lost").2.2.2.2.2 11 "boom" rfl,
   by
    rw [(C8_batch_counters exStep [10, 11, 12] "lost").1]
    simp [batch_step, exStep],
   (C8_batch_counters exStep [10, 11, 12] "lost").2.2.2.2.1⟩

/-- The variant opposite to a query type, as the claim words it: a
`lost` query scans found items and vice versa. -/
def opposite_variant : String → String
  | "lost" => "found"
  | "found" => "lost"
  | s => s

/-- C7: the candidates scanned (and hence scored) by
`find_similar_items` are exactly the `active` items holding a combined
embedding, drawn from the requested target table when `target_type` is
given and from the variant opposite to the query type when it is
omitted, with the query item itself excluded whenever the scanned
variant equals the query type. -/
theorem C7_candidate_population (q : Item) (qtype : String)
    (ttype : Option String) (db : DB)
    (hq : qtype = "lost" ∨ qtype = "found")
    (ht : ttype = none ∨ ttype = some "lost" ∨ ttype = some "found") :
    ∀ it ty, (it, ty) ∈ scanned_candidates q qtype ttype db ↔
      (((ty = "lost" ∧ it ∈ db.lost) ∨ (ty = "found" ∧ it ∈ db.found)) ∧
       it.status = "active" ∧ it.combined_embedding.isSome = true ∧
       (ttype = some ty ∨ (ttype = none ∧ ty = opposite_variant qtype)) ∧
       ¬(ty = qtype ∧ it.id = q.id)) := by
  rcases hq with rfl | rfl <;> rcases ht with rfl | rfl | rfl <;>
    intro it ty <;>
    simp only [scanned_candidates, target_tables, opposite_variant,
      List.mem_flatMap, List.mem_filter, List.mem_map] <;>
    simp <;> aesop

/-- C5 (as stated) is false: in a run where the only attached image
fails to encode, the image row is marked `failed` with the stored error
text, but its retry counter `processing_attempts` is NOT incremented —
it keeps its previous value 0. -/
theorem C5_counterexample :
    (generate_item_embeddings exSvcImageFail exItemBase "lost" exDb1 false 9).res.success = true ∧
    (generate_item_embeddings exSvcImageFail exItemBase "lost" exDb1 false 9).images.map
      (fun im => im.embedding_status) = ["failed"] ∧
    (generate_item_embeddings exSvcImageFail exItemBase "lost" exDb1 false 9).images.map
      (fun im => im.processing_error) = [some "image encoding failed"] ∧
    (generate_item_embeddings exSvcImageFail exItemBase "lost" exDb1 false 9).images.map
      (fun im => im.processing_attempts) = [exImage1.processing_attempts] ∧
    ¬((generate_item_embeddings exSvcImageFail exItemBase "lost" exDb1 false 9).images.map
      (fun im => im.processing_attempts) = [exImage1.processing_attempts + 1]) := by
  refine ⟨rfl, rfl, rfl, rfl, ?_⟩
  intro h
  simp [generate_item_embeddings, exSvcImageFail, exSvcOk, exItemBase, exDb1,
    exImage1, attached_images, processed_images, image_step] at h

/-- C5 (amended): a failing image encode affects only that image row —
it is marked `failed` and stores the error text while every other field
(including the retry counter `processing_attempts`, which the code
leaves unchanged) keeps its value; sibling images that encode
successfully are processed normally, the text embedding is kept, and
the call still reports success. -/
theorem C5_image_failure_isolated (svc : CLIPService) (item : Item)
    (ty : String) (db : DB) (force : Bool) (now : Int) (t : List ℚ)
    (hpath : (!force && item.combined_embedding.isSome) = false)
    (htext : svc.encodeText item.description = Except.ok t) :
    (generate_item_embeddings svc item ty db force now).res.success = true ∧
    (generate_item_embeddings svc item ty db force now).images =
      processed_images svc (attached_images db item.id ty) ∧
    (generate_item_embeddings svc item ty db force now).item.description_embedding =
      some t ∧
    (∀ im : Image, ∀ e, svc.encodeImage im.file_path = Except.error e →
      (image_step svc im).1.embedding_status = "failed" ∧
      (image_step svc im).1.processing_error = some e ∧
      (image_step svc im).1.processing_attempts = im.processing_attempts ∧
      (image_step svc im).1.image_embedding = im.image_embedding ∧
      (image_step svc im).1.embedding_model = im.embedding_model ∧
      (image_step svc im).1.id = im.id ∧
      (image_step svc im).1.file_path = im.file_path ∧
      (image_step svc im).1.item_id = im.item_id ∧
      (image_step svc im).1.item_type = im.item_type) ∧
    (∀ im : Image, ∀ v, svc.encodeImage im.file_path = Except.ok v →
      (image_step svc im).1.image_embedding = some v ∧
      (image_step svc im).1.embedding_status = "processed") := by
  refine ⟨?_, ?_, ?_, ?_, ?_⟩
  · simp [generate_item_embeddings, hpath, htext]
  · simp [generate_item_embeddings, hpath, htext]
  · simp only [generate_item_embeddings, hpath, htext]
    simp only [Bool.false_eq_true, if_false]
    unfold embed_item
    dsimp only
    split <;> split <;> rfl
  · intro im e him
    simp [image_step, him]
  · intro im v him
    simp [image_step, him]

theorem C5_witness :
    (!false && exItemBase.combined_embedding.isSome) = false ∧
    exSvcImageFail.encodeText exItemBase.description = Except.ok [1, 0] ∧
    exSvcImageFail.encodeImage exImage1.file_path =
      Except.error "image encoding failed" ∧
    (generate_item_embeddings exSvcImageFail exItemBase "lost" exDb1 false 9).res.success = true ∧
    (image_step exSvcImageFail exImage1).1.processing_attempts =
      exImage1.processing_attempts ∧
    (image_step exSvcImageFail exImage1).1.embedding_status = "failed" :=
  ⟨rfl, rfl, rfl,
   (C5_image_failure_isolated exSvcImageFail exItemBase "lost" exDb1 false 9
     [1, 0] rfl rfl).1,
   ((C5_image_failure_isolated exSvcImageFail exItemBase "lost" exDb1 false 9
     [1, 0] rfl rfl).2.2.2.1 exImage1 "image encoding failed" rfl).2.2.1,
   ((C5_image_failure_isolated exSvcImageFail exItemBase "lost" exDb1 false 9
     [1, 0] rfl rfl).2.2.2.1 exImage1 "image encoding failed" rfl).1⟩

/-- C1: after a successful non-short-circuited run of
`generate_item_embeddings`, the item's `combined_embedding` is defined
if and only if its `description_embedding` is (both are); when no image
embedding is stored the combined embedding equals the text embedding;
when an image embedding `iv` is stored the combined embedding equals
`normalize(0.4 · t + 0.6 · iv)`; and when at least one attached image
was successfully encoded, the stored image embedding is the arithmetic
mean of the successful image vectors and `has_images` is set. -/
theorem C1_combined_embedding_invariant (svc : CLIPService) (item : Item)
    (ty : String) (db : DB) (force : Bool) (now : Int) (t : List ℚ)
    (hpath : (!force && item.combined_embedding.isSome) = false)
    (htext : svc.encodeText item.description = Except.ok t) :
    (generate_item_embeddings svc item ty db force now).res.success = true ∧
    ((generate_item_embeddings svc item ty db force now).item.combined_embedding.isSome ↔
     (generate_item_embeddings svc item ty db force now).item.description_embedding.isSome) ∧
    (generate_item_embeddings svc item ty db force now).item.description_embedding =
      some t ∧
    ((generate_item_embeddings svc item ty db force now).item.image_embedding = none →
      (generate_item_embeddings svc item ty db force now).item.combined_embedding =
        some t) ∧
    (∀ iv, (generate_item_embeddings svc item ty db force now).item.image_embedding =
        some iv →
      (generate_item_embeddings svc item ty db force now).item.combined_embedding =
        some (vnormalize svc.sqrtO (vadd (vscale 0.4 t) (vscale 0.6 iv)))) ∧
    (successful_vecs svc (attached_images db item.id ty) ≠ [] →
      (generate_item_embeddings svc item ty db force now).item.image_embedding =
        some (vmean (successful_vecs svc (attached_images db item.id ty))) ∧
      (generate_item_embeddings svc item ty db force now).item.has_images = true) := by
  have hni : (generate_item_embeddings svc item ty db force now).item =
      embed_item svc item t (successful_vecs svc (attached_images db item.id ty)) now := by
    simp [generate_item_embeddings, hpath, htext]
  have hsucc : (generate_item_embeddings svc item ty db force now).res.success = true := by
    simp [generate_item_embeddings, hpath, htext]
  rw [hni]
  by_cases hE : (successful_vecs svc (attached_images db item.id ty)).isEmpty
  · rcases hio : item.image_embedding with _ | iv
    · refine ⟨hsucc, ?_, ?_, ?_, ?_, ?_⟩ <;>
        simp [embed_item, hE, hio, List.isEmpty_iff.mp hE]
    · refine ⟨hsucc, ?_, ?_, ?_, ?_, ?_⟩ <;>
        simp [embed_item, hE, hio, List.isEmpty_iff.mp hE]
  · refine ⟨hsucc, ?_, ?_, ?_, ?_, ?_⟩ <;>
      simp [embed_item, hE]

theorem C1_witness :
    (!false && exItemBase.combined_embedding.isSome) = false ∧
    exSvcOk.encodeText exItemBase.description = Except.ok [1, 0] ∧
    successful_vecs exSvcOk (attached_images exDb1 exItemBase.id "lost") ≠ [] ∧
    (generate_item_embeddings exSvcOk exItemBase "lost" exDb1 false 9).item.description_embedding =
      some [1, 0] ∧
    (generate_item_embeddings exSvcOk exItemBase "lost" exDb1 false 9).item.image_embedding =
      some (vmean (successful_vecs exSvcOk (attached_images exDb1 exItemBase.id "lost"))) ∧
    (generate_item_embeddings exSvcOk exItemBase "lost" exDb1 false 9).item.has_images = true :=
  ⟨rfl, rfl, by decide,
   (C1_combined_embedding_invariant exSvcOk exItemBase "lost" exDb1 false 9
     [1, 0] rfl rfl).2.2.1,
   ((C1_combined_embedding_invariant exSvcOk exItemBase "lost" exDb1 false 9
     [1, 0] rfl rfl).2.2.2.2.2 (by decide)).1,
   ((C1_combined_embedding_invariant exSvcOk exItemBase "lost" exDb1 false 9
     [1, 0] rfl rfl).2.2.2.2.2 (by decide)).2⟩

/-- Inserting one match into a list preserves, per confidence value,
the subsequence of matches carrying that value (with the inserted match
in front when it carries the value itself). -/
theorem filter_conf_orderedInsert (c : ℚ) (a : MatchEntry) (l : List MatchEntry) :
    (l.orderedInsert byConfidence a).filter (fun m => m.confidence_level == c) =
      if a.confidence_level == c
      then a :: l.filter (fun m => m.confidence_level == c)
      else l.filter (fun m => m.confidence_level == c) := by
  induction l with
  | nil =>
    simp only [List.orderedInsert, List.filter]
    cases h : (a.confidence_level == c) <;> simp [h]
  | cons b l ih =>
    by_cases hr : byConfidence a b
    · rw [List.orderedInsert_of_le _ _ hr]
      cases hpa : (a.confidence_level == c) <;> simp [List.filter_cons, hpa]
    · have hlt : a.confidence_level < b.confidence_level := not_le.mp hr
      have hoi : (b :: l).orderedInsert byConfidence a =
          b :: l.orderedInsert byConfidence a := by
        simp only [List.orderedInsert, if_neg hr]
      rw [hoi]
      cases hpa : (a.confidence_level == c) <;>
        cases hpb : (b.confidence_level == c) <;>
        simp_all [List.filter_cons, ih]

/-- The stable descending sort keeps, for every confidence value, the
matches carrying that value in their original relative order. -/
theorem filter_conf_insertionSort (c : ℚ) (l : List MatchEntry) :
    (l.insertionSort byConfidence).filter (fun m => m.confidence_level == c) =
      l.filter (fun m => m.confidence_level == c) := by
  induction l with
  | nil => rfl
  | cons a l ih =>
    simp only [List.insertionSort]
    rw [filter_conf_orderedInsert]
    cases hpa : (a.confidence_level == c) <;> simp [List.filter_cons, hpa, ih]

/-- Membership in the accumulated match list: exactly the scanned
candidates whose similarity clears the threshold, scored. -/
theorem mem_scored_matches (svc : CLIPService) (now : Int) (q : Item)
    (qemb : List ℚ) (qtype : String) (ttype : Option String) (thr : ℚ)
    (lb tb : Bool) (db : DB) (m : MatchEntry) :
    m ∈ scored_matches svc now q qemb qtype ttype thr lb tb db ↔
      ∃ p ∈ scanned_candidates q qtype ttype db,
        m = score_candidate svc now q qemb lb tb db p ∧
        thr ≤ m.similarity_score := by
  unfold scored_matches
  simp only [List.mem_filterMap]
  constructor
  · rintro ⟨p, hp, hf⟩
    by_cases hthr : thr ≤ (score_candidate svc now q qemb lb tb db p).similarity_score
    · rw [if_pos hthr] at hf
      rcases Option.some.injEq _ _ ▸ hf with rfl
      exact ⟨p, hp, rfl, hthr⟩
    · rw [if_neg hthr] at hf
      exact absurd hf (by simp)
  · rintro ⟨p, hp, rfl, hthr⟩
    exact ⟨p, hp, if_pos hthr⟩

/-- The tables scanned by the ad-hoc searches
(`clip_services.py:327-332,384-390`): both variants when `item_type`
is omitted, else the requested one. -/
def adhoc_tables (db : DB) (item_type : Option String) :
    List (List Item × String) :=
  (if item_type == some "lost" || item_type == none
   then [(db.lost, "lost")] else []) ++
  (if item_type == some "found" || item_type == none
   then [(db.found, "found")] else [])

/-- The optional category filter of the ad-hoc searches
(`clip_services.py:340-341,398-399`); Python's `if category:` is false
for `None` and for the empty string. -/
def category_filtered (category : Option String) (items : List Item) :
    List Item :=
  match category with
  | none => items
  | some c => if c == "" then items else items.filter (fun it => it.category == c)

/-- The candidates iterated by `search_by_text_embedding`
(`clip_services.py:334-345`): active rows with a combined embedding,
optionally restricted by category, tagged with the table type. -/
def text_search_candidates (db : DB) (item_type category : Option String) :
    List (Item × String) :=
  (adhoc_tables db item_type).flatMap (fun p =>
    (category_filtered category
      (p.1.filter (fun it => it.combined_embedding.isSome && it.status == "active"))).map
      (fun it => (it, p.2)))

/-- The candidates iterated by `search_by_image_embedding`
(`clip_services.py:392-403`): active rows with an image embedding,
optionally restricted by category, tagged with the table type. -/
def image_search_candidates (db : DB) (item_type category : Option String) :
    List (Item × String) :=
  (adhoc_tables db item_type).flatMap (fun p =>
    (category_filtered category
      (p.1.filter (fun it => it.image_embedding.isSome && it.status == "active"))).map
      (fun it => (it, p.2)))

/-- The match dictionary built for one text-search candidate
(`clip_services.py:351-363`): `confidence_level` equals the raw
similarity, no bonuses, image count 0. -/
def score_text_candidate (svc : CLIPService) (query_embedding : List ℚ)
    (p : Item × String) : MatchEntry :=
  let similarity := cosine_similarity svc.sqrtO query_embedding
    (p.1.combined_embedding.getD [])
  { item_id := p.1.id
    item_type := p.2
    title := p.1.title
    description := p.1.description
    category := p.1.category
    location := p.1.location
    similarity_score := similarity
    confidence_level := similarity
    match_type := "text_similarity"
    location_bonus := none
    time_bonus := none
    date_created := p.1.created_at
    image_count := 0 }

/-- The match dictionary built for one image-search candidate
(`clip_services.py:405-426`): similarity against the item's image
embedding, `confidence_level` equal to it, with the image count read. -/
def score_image_candidate (svc : CLIPService) (query_embedding : List ℚ)
    (db : DB) (p : Item × String) : MatchEntry :=
  let similarity := cosine_similarity svc.sqrtO query_embedding
    (p.1.image_embedding.getD [])
  { item_id := p.1.id
    item_type := p.2
    title := p.1.title
    description := p.1.description
    category := p.1.category
    location := p.1.location
    similarity_score := similarity
    confidence_level := similarity
    match_type := "image_similarity"
    location_bonus := none
    time_bonus := none
    date_created := p.1.created_at
    image_count := (db.images.filter (fun im =>
      im.item_id == p.1.id && im.item_type == p.2)).length }

/-- The `matches` list accumulated by the text-search loop, in scan
order, keeping only candidates with `similarity >= threshold`. -/
def text_scored_matches (svc : CLIPService) (query_embedding : List ℚ)
    (item_type category : Option String) (threshold : ℚ) (db : DB) :
    List MatchEntry :=
  (text_search_candidates db item_type category).filterMap (fun p =>
    let m := score_text_candidate svc query_embedding p
    if threshold ≤ m.similarity_score then some m else none)

/-- The `matches` list accumulated by the image-search loop, in scan
order, keeping only candidates with `similarity >= threshold`. -/
def image_scored_matches (svc : CLIPService) (query_embedding : List ℚ)
    (item_type category : Option String) (threshold : ℚ) (db : DB) :
    List MatchEntry :=
  (image_search_candidates db item_type category).filterMap (fun p =>
    let m := score_image_candidate svc query_embedding db p
    if threshold ≤ m.similarity_score then some m else none)

/-- Sort order of the ad-hoc searches' final
`matches.sort(key=similarity_score, reverse=True)`. -/
def bySimilarity (a b : MatchEntry) : Prop :=
  b.similarity_score ≤ a.similarity_score

instance : DecidableRel bySimilarity := fun a b =>
  inferInstanceAs (Decidable (b.similarity_score ≤ a.similarity_score))

instance : IsTotal MatchEntry bySimilarity :=
  ⟨fun a b => le_total b.similarity_score a.similarity_score⟩

instance : IsTrans MatchEntry bySimilarity :=
  ⟨fun _ _ _ h1 h2 => le_trans h2 h1⟩

/-- Model of `CLIPService.search_by_text_embedding`
(`clip_services.py:315-370`): scan, threshold-filter, stable sort
descending by similarity, truncate. -/
def search_by_text_embedding (svc : CLIPService) (query_embedding : List ℚ)
    (db : DB) (item_type category : Option String) (threshold : ℚ)
    (max_results : Nat) : List MatchEntry :=
  let ms := text_scored_matches svc query_embedding item_type category
    threshold db
  (ms.insertionSort bySimilarity).take max_results

/-- Model of `CLIPService.search_by_image_embedding`
(`clip_services.py:372-433`): scan, threshold-filter, stable sort
descending by similarity, truncate. -/
def search_by_image_embedding (svc : CLIPService) (query_embedding : List ℚ)
    (db : DB) (item_type category : Option String) (threshold : ℚ)
    (max_results : Nat) : List MatchEntry :=
  let ms := image_scored_matches svc query_embedding item_type category
    threshold db
  (ms.insertionSort bySimilarity).take max_results

/-- Inserting one match under the similarity order preserves, per
similarity value, the subsequence of matches carrying that value. -/
theorem filter_sim_orderedInsert (c : ℚ) (a : MatchEntry) (l : List MatchEntry) :
    (l.orderedInsert bySimilarity a).filter (fun m => m.similarity_score == c) =
      if a.similarity_score == c
      then a :: l.filter (fun m => m.similarity_score == c)
      else l.filter (fun m => m.similarity_score == c) := by
  induction l with
  | nil =>
    simp only [List.orderedInsert, List.filter]
    cases h : (a.similarity_score == c) <;> simp [h]
  | cons b l ih =>
    by_cases hr : bySimilarity a b
    · rw [List.orderedInsert_of_le _ _ hr]
      cases hpa : (a.similarity_score == c) <;> simp [List.filter_cons, hpa]
    · have hlt : a.similarity_score < b.similarity_score := not_le.mp hr
      have hoi : (b :: l).orderedInsert bySimilarity a =
          b :: l.orderedInsert bySimilarity a := by
        simp only [List.orderedInsert, if_neg hr]
      rw [hoi]
      cases hpa : (a.similarity_score == c) <;>
        cases hpb : (b.similarity_score == c) <;>
        simp_all [List.filter_cons, ih]

/-- The ad-hoc stable descending sort keeps, for every similarity
value, the matches carrying that value in their original relative
order. -/
theorem filter_sim_insertionSort (c : ℚ) (l : List MatchEntry) :
    (l.insertionSort bySimilarity).filter (fun m => m.similarity_score == c) =
      l.filter (fun m => m.similarity_score == c) := by
  induction l with
  | nil => rfl
  | cons a l ih =>
    simp only [List.insertionSort]
    rw [filter_sim_orderedInsert]
    cases hpa : (a.similarity_score == c) <;> simp [List.filter_cons, hpa, ih]

/-- Membership in the text-search match list: exactly the scanned
candidates whose similarity clears the threshold, scored. -/
theorem mem_text_scored_matches (svc : CLIPService) (qemb : List ℚ)
    (it cat : Option String) (thr : ℚ) (db : DB) (m : MatchEntry) :
    m ∈ text_scored_matches svc qemb it cat thr db ↔
      ∃ p ∈ text_search_candidates db it cat,
        m = score_text_candidate svc qemb p ∧ thr ≤ m.similarity_score := by
  unfold text_scored_matches
  simp only [List.mem_filterMap]
  constructor
  · rintro ⟨p, hp, hf⟩
    by_cases hthr : thr ≤ (score_text_candidate svc qemb p).similarity_score
    · rw [if_pos hthr] at hf
      rcases Option.some.injEq _ _ ▸ hf with rfl
      exact ⟨p, hp, rfl, hthr⟩
    · rw [if_neg hthr] at hf
      exact absurd hf (by simp)
  · rintro ⟨p, hp, rfl, hthr⟩
    exact ⟨p, hp, if_pos hthr⟩

/-- Membership in the image-search match list: exactly the scanned
candidates whose similarity clears the threshold, scored. -/
theorem mem_image_scored_matches (svc : CLIPService) (qemb : List ℚ)
    (it cat : Option String) (thr : ℚ) (db : DB) (m : MatchEntry) :
    m ∈ image_scored_matches svc qemb it cat thr db ↔
      ∃ p ∈ image_search_candidates db it cat,
        m = score_image_candidate svc qemb db p ∧
        thr ≤ m.similarity_score := by
  unfold image_scored_matches
  simp only [List.mem_filterMap]
  constructor
  · rintro ⟨p, hp, hf⟩
    by_cases hthr : thr ≤ (score_image_candidate svc qemb db p).similarity_score
    · rw [if_pos hthr] at hf
      rcases Option.some.injEq _ _ ▸ hf with rfl
      exact ⟨p, hp, rfl, hthr⟩
    · rw [if_neg hthr] at hf
      exact absurd hf (by simp)
  · rintro ⟨p, hp, rfl, hthr⟩
    exact ⟨p, hp, if_pos hthr⟩

/-- Every text-search entry carries `confidence_level` equal to its
raw similarity. -/
theorem conf_eq_sim_text (svc : CLIPService) (qemb : List ℚ)
    (it cat : Option String) (thr : ℚ) (db : DB) :
    ∀ m ∈ text_scored_matches svc qemb it cat thr db,
      m.confidence_level = m.similarity_score := by
  intro m hm
  obtain ⟨p, _, rfl, _⟩ :=
    (mem_text_scored_matches svc qemb it cat thr db m).mp hm
  rfl

/-- Every image-search entry carries `confidence_level` equal to its
raw similarity. -/
theorem conf_eq_sim_image (svc : CLIPService) (qemb : List ℚ)
    (it cat : Option String) (thr : ℚ) (db : DB) :
    ∀ m ∈ image_scored_matches svc qemb it cat thr db,
      m.confidence_level = m.similarity_score := by
  intro m hm
  obtain ⟨p, _, rfl, _⟩ :=
    (mem_image_scored_matches svc qemb it cat thr db m).mp hm
  rfl

/-- A list sorted descending by similarity whose entries all have
`confidence_level = similarity_score` is sorted descending by
confidence. -/
theorem sorted_conf_of_sorted_sim (l : List MatchEntry)
    (h : ∀ m ∈ l, m.confidence_level = m.similarity_score)
    (hs : l.Sorted bySimilarity) : l.Sorted byConfidence :=
  List.Pairwise.imp_of_mem
    (fun ha hb hr => by
      unfold byConfidence
      unfold bySimilarity at hr
      rw [h _ ha, h _ hb]
      exact hr) hs

/-- On a list whose entries all have `confidence_level =
similarity_score`, filtering by a confidence value equals filtering by
the same similarity value. -/
theorem filter_conf_eq_filter_sim (c : ℚ) (l : List MatchEntry)
    (h : ∀ m ∈ l, m.confidence_level = m.similarity_score) :
    l.filter (fun m => m.confidence_level == c) =
      l.filter (fun m => m.similarity_score == c) :=
  List.filter_congr (fun m hm => by rw [h m hm])

/-- C3: every search returns exactly the threshold filtering of its
scanned candidates (similarity greater than or equal to the threshold
is kept, strictly below is dropped), sorted descending by
`confidence_level` with a stable sort (ties keep scan order) and
truncated to at most `max_results` entries — for the item-to-item
search `find_similar_items` and for the two ad-hoc searches
`search_by_text_embedding` and `search_by_image_embedding` (whose
entries carry `confidence_level` equal to the raw similarity, so their
similarity sort is a confidence sort). -/
theorem C3_filter_sort_truncate (svc : CLIPService) (now : Int) (q : Item)
    (qemb : List ℚ) (qtype : String) (ttype : Option String) (thr : ℚ)
    (maxr : Nat) (lb tb : Bool) (db : DB) (itT catT : Option String)
    (hq : q.combined_embedding = some qemb) :
    ((find_similar_items svc now q qtype db ttype thr maxr lb tb).1 =
      Except.ok (((scored_matches svc now q qemb qtype ttype thr lb tb
        db).insertionSort byConfidence).take maxr) ∧
     (∀ m, m ∈ (scored_matches svc now q qemb qtype ttype thr lb tb
        db).insertionSort byConfidence ↔
       ∃ p ∈ scanned_candidates q qtype ttype db,
         m = score_candidate svc now q qemb lb tb db p ∧
         thr ≤ m.similarity_score) ∧
     ((scored_matches svc now q qemb qtype ttype thr lb tb
        db).insertionSort byConfidence).Sorted byConfidence ∧
     (∀ c : ℚ, ((scored_matches svc now q qemb qtype ttype thr lb tb
        db).insertionSort byConfidence).filter
          (fun m => m.confidence_level == c) =
        (scored_matches svc now q qemb qtype ttype thr lb tb db).filter
          (fun m => m.confidence_level == c)) ∧
     (((scored_matches svc now q qemb qtype ttype thr lb tb
        db).insertionSort byConfidence).take maxr).length ≤ maxr) ∧
    (search_by_text_embedding svc qemb db itT catT thr maxr =
      ((text_scored_matches svc qemb itT catT thr db).insertionSort
        bySimilarity).take maxr ∧
     (∀ m, m ∈ (text_scored_matches svc qemb itT catT thr
        db).insertionSort bySimilarity ↔
       ∃ p ∈ text_search_candidates db itT catT,
         m = score_text_candidate svc qemb p ∧
         thr ≤ m.similarity_score) ∧
     ((text_scored_matches svc qemb itT catT thr db).insertionSort
        bySimilarity).Sorted byConfidence ∧
     (∀ c : ℚ, ((text_scored_matches svc qemb itT catT thr
        db).insertionSort bySimilarity).filter
          (fun m => m.confidence_level == c) =
        (text_scored_matches svc qemb itT catT thr db).filter
          (fun m => m.confidence_level == c)) ∧
     ((search_by_text_embedding svc qemb db itT catT thr maxr).length ≤ maxr)) ∧
    (search_by_image_embedding svc qemb db itT catT thr maxr =
      ((image_scored_matches svc qemb itT catT thr db).insertionSort
        bySimilarity).take maxr ∧
     (∀ m, m ∈ (image_scored_matches svc qemb itT catT thr
        db).insertionSort bySimilarity ↔
       ∃ p ∈ image_search_candidates db itT catT,
         m = score_image_candidate svc qemb db p ∧
         thr ≤ m.similarity_score) ∧
     ((image_scored_matches svc qemb itT catT thr db).insertionSort
        bySimilarity).Sorted byConfidence ∧
     (∀ c : ℚ, ((image_scored_matches svc qemb itT catT thr
        db).insertionSort bySimilarity).filter
          (fun m => m.confidence_level == c) =
        (image_scored_matches svc qemb itT catT thr db).filter
          (fun m => m.confidence_level == c)) ∧
     ((search_by_image_embedding svc qemb db itT catT thr maxr).length ≤ maxr)) := by
  have hcsT : ∀ m ∈ (text_scored_matches svc qemb itT catT thr
      db).insertionSort bySimilarity,
      m.confidence_level = m.similarity_score := fun m hm =>
    conf_eq_sim_text svc qemb itT catT thr db m
      ((List.mem_insertionSort bySimilarity).mp hm)
  have hcsI : ∀ m ∈ (image_scored_matches svc qemb itT catT thr
      db).insertionSort bySimilarity,
      m.confidence_level = m.similarity_score := fun m hm =>
    conf_eq_sim_image svc qemb itT catT thr db m
      ((List.mem_insertionSort bySimilarity).mp hm)
  refine ⟨⟨?_, ?_, ?_, ?_, ?_⟩, ⟨rfl, ?_, ?_, ?_, ?_⟩, ⟨rfl, ?_, ?_, ?_, ?_⟩⟩
  · simp [find_similar_items, hq]
  · intro m
    rw [List.mem_insertionSort]
    exact mem_scored_matches svc now q qemb qtype ttype thr lb tb db m
  · exact List.sorted_insertionSort byConfidence _
  · intro c
    exact filter_conf_insertionSort c _
  · exact List.length_take_le maxr _
  · intro m
    rw [List.mem_insertionSort]
    exact mem_text_scored_matches svc qemb itT catT thr db m
  · exact sorted_conf_of_sorted_sim _ hcsT
      (List.sorted_insertionSort bySimilarity _)
  · intro c
    rw [filter_conf_eq_filter_sim c _ hcsT, filter_sim_insertionSort,
      ← filter_conf_eq_filter_sim c _ (conf_eq_sim_text svc qemb itT catT thr db)]
  · exact List.length_take_le maxr _
  · intro m
    rw [List.mem_insertionSort]
    exact mem_image_scored_matches svc qemb itT catT thr db m
  · exact sorted_conf_of_sorted_sim _ hcsI
      (List.sorted_insertionSort bySimilarity _)
  · intro c
    rw [filter_conf_eq_filter_sim c _ hcsI, filter_sim_insertionSort,
      ← filter_conf_eq_filter_sim c _ (conf_eq_sim_image svc qemb itT catT thr db)]
  · exact List.length_take_le maxr _

/-- A found candidate at location "hallway", created on day 5. -/
def exCand : Item :=
  { exItemWithComb with id := 2, location := "hallway", created_at := 5 }

/-- Search fixture: one lost query item, one found candidate. -/
def exDb2 : DB :=
  { lost := [exItemWithComb], found := [exCand], images := [], sim_matches := [] }

/-- The match entry scored for the fixture candidate. -/
def exEntry : MatchEntry :=
  score_candidate exSvcOk 5 exItemWithComb [1, 0] true true exDb2 (exCand, "found")

theorem exScan_eval :
    scanned_candidates exItemWithComb "lost" none exDb2 = [(exCand, "found")] := by
  decide

theorem exSim_eval : exEntry.similarity_score = 1 := by
  simp only [exEntry, score_candidate, cosine_similarity, vdot, exSvcOk,
    exCand, exItemWithComb, exItemBase]
  norm_num

theorem exLoc_eval : _calculate_location_bonus exItemWithComb exCand = 11/10 := by
  have h1 : (lowerStr exItemWithComb.location == lowerStr exCand.location) = false := by
    decide
  have h2 : ((splitWs (lowerStr exItemWithComb.location)).any
      (fun w => isInfixList w (lowerStr exCand.location)) ||
      (splitWs (lowerStr exCand.location)).any
      (fun w => isInfixList w (lowerStr exItemWithComb.location))) = true := by
    decide
  simp only [_calculate_location_bonus, h1, h2, Bool.false_eq_true, if_false, if_true]

theorem exTime_eval : _calculate_time_bonus 5 exCand = 12/10 := by
  have h : exCand.created_at = 5 := rfl
  simp only [_calculate_time_bonus, h]
  norm_num

theorem exConf_eval : exEntry.confidence_level = 33/25 := by
  have hcos : cosine_similarity exSvcOk.sqrtO [1, 0]
      (exCand.combined_embedding.getD []) = 1 := by
    simp only [cosine_similarity, vdot, exSvcOk, exCand, exItemWithComb, exItemBase]
    norm_num
  have hloc := exLoc_eval
  have htime := exTime_eval
  simp only [exEntry, score_candidate, if_true, hcos, hloc, htime]
  norm_num

theorem exScored_eval :
    scored_matches exSvcOk 5 exItemWithComb [1, 0] "lost" none (7/10) true true
      exDb2 = [exEntry] := by
  have hthr : ((7 : ℚ)/10) ≤ exEntry.similarity_score := by
    rw [exSim_eval]; norm_num
  simp only [scored_matches, exScan_eval, List.filterMap]
  rw [show score_candidate exSvcOk 5 exItemWithComb [1, 0] true true exDb2
    (exCand, "found") = exEntry from rfl, if_pos hthr]

theorem exFind_eval :
    (find_similar_items exSvcOk 5 exItemWithComb "lost" exDb2 none (7/10) 10
      true true).1 = Except.ok [exEntry] := by
  have hcomb : exItemWithComb.combined_embedding = some [1, 0] := rfl
  unfold find_similar_items
  rw [hcomb]
  simp only [exScored_eval]
  simp [List.insertionSort, List.orderedInsert]

/-- C2 (as stated) is false: in this concrete item-to-item search the
scored candidate has locations "hall" / "hallway", which share no
whitespace token, so the claim's location bonus is 1.0 and its
predicted confidence is `1 · 1.0 · 1.2`; the code instead applies the
substring rule and returns confidence `1 · 1.1 · 1.2 = 33/25`. -/
theorem C2_counterexample :
    (find_similar_items exSvcOk 5 exItemWithComb "lost" exDb2 none (7/10) 10
      true true).1 = Except.ok [exEntry] ∧
    exEntry.similarity_score = 1 ∧
    exEntry.confidence_level = 33/25 ∧
    location_bonus_token_overlap exItemWithComb.location exCand.location = 1 ∧
    time_bonus_age (5 - exCand.created_at) = 12/10 ∧
    ¬(exEntry.confidence_level = exEntry.similarity_score *
        location_bonus_token_overlap exItemWithComb.location exCand.location *
        time_bonus_age (5 - exCand.created_at)) := by
  have hlt : location_bonus_token_overlap exItemWithComb.location
      exCand.location = 1 := by
    have h1 : (lowerStr exItemWithComb.location == lowerStr exCand.location) =
        false := by decide
    have h2 : ((splitWs (lowerStr exItemWithComb.location)).any
        (fun w => (splitWs (lowerStr exCand.location)).contains w)) = false := by
      decide
    simp only [location_bonus_token_overlap, h1, h2, Bool.false_eq_true, if_false]
  have hta : time_bonus_age (5 - exCand.created_at) = 12/10 := by
    have h : exCand.created_at = 5 := rfl
    simp only [time_bonus_age, h]
    norm_num
  refine ⟨exFind_eval, exSim_eval, exConf_eval, hlt, hta, ?_⟩
  rw [exConf_eval, exSim_eval, hlt, hta]
  norm_num

/-- C2 (amended): every entry returned by an item-to-item search is the
score of some scanned candidate, its `confidence_level` equals
`similarity × location_bonus × time_bonus` with each disabled bonus
equal to 1; the location bonus is 1.2 on an exact case-insensitive
location match, 1.1 when some whitespace token of one lowercased
location string occurs as a contiguous substring of the other, and 1.0
otherwise; the time bonus is 1.2 for candidate age ≤ 1 day, 1.1 for
≤ 7 days, 1.0 for ≤ 30 days and 0.9 otherwise. -/
theorem C2_confidence_formula (svc : CLIPService) (now : Int) (q : Item)
    (qemb : List ℚ) (qtype : String) (ttype : Option String) (thr : ℚ)
    (maxr : Nat) (lb tb : Bool) (db : DB) (out : List MatchEntry)
    (m : MatchEntry)
    (hq : q.combined_embedding = some qemb)
    (hout : (find_similar_items svc now q qtype db ttype thr maxr lb tb).1 =
      Except.ok out)
    (hm : m ∈ out) :
    ∃ p ∈ scanned_candidates q qtype ttype db,
      m = score_candidate svc now q qemb lb tb db p ∧
      m.confidence_level = m.similarity_score *
        (if lb then _calculate_location_bonus q p.1 else 1) *
        (if tb then _calculate_time_bonus now p.1 else 1) ∧
      m.location_bonus = (if lb then some (_calculate_location_bonus q p.1)
        else none) ∧
      m.time_bonus = (if tb then some (_calculate_time_bonus now p.1)
        else none) ∧
      _calculate_location_bonus q p.1 =
        location_bonus_substring_overlap q.location p.1.location ∧
      _calculate_time_bonus now p.1 = time_bonus_age (now - p.1.created_at) := by
  have hfind : (find_similar_items svc now q qtype db ttype thr maxr lb tb).1 =
      Except.ok (((scored_matches svc now q qemb qtype ttype thr lb tb
        db).insertionSort byConfidence).take maxr) := by
    simp [find_similar_items, hq]
  rw [hfind] at hout
  have hout2 : out = ((scored_matches svc now q qemb qtype ttype thr lb tb
      db).insertionSort byConfidence).take maxr := by
    exact (Except.ok.injEq _ _ ▸ hout).symm
  rw [hout2] at hm
  have hm2 : m ∈ scored_matches svc now q qemb qtype ttype thr lb tb db := by
    rw [← List.mem_insertionSort byConfidence]
    exact List.mem_of_mem_take hm
  obtain ⟨p, hp, hmp, _⟩ := (mem_scored_matches svc now q qemb qtype ttype thr
    lb tb db m).mp hm2
  refine ⟨p, hp, hmp, ?_, ?_, ?_, rfl, rfl⟩
  · rw [hmp]; rfl
  · rw [hmp]; cases lb <;> simp [score_candidate]
  · rw [hmp]; cases tb <;> simp [score_candidate]

theorem C2_witness :
    exItemWithComb.combined_embedding = some [1, 0] ∧
    exEntry ∈ [exEntry] ∧
    exEntry.confidence_level = exEntry.similarity_score *
      (if true then _calculate_location_bonus exItemWithComb exCand else 1) *
      (if true then _calculate_time_bonus 5 exCand else 1) ∧
    _calculate_location_bonus exItemWithComb exCand =
      location_bonus_substring_overlap exItemWithComb.location exCand.location ∧
    _calculate_time_bonus 5 exCand = time_bonus_age (5 - exCand.created_at) := by
  refine ⟨rfl, List.mem_singleton.mpr rfl, ?_⟩
  obtain ⟨p, hp, hmp, hconf, hlocf, htimef, hlocs, htimes⟩ :=
    C2_confidence_formula exSvcOk 5 exItemWithComb [1, 0] "lost" none (7/10) 10
      true true exDb2 [exEntry] exEntry rfl exFind_eval
      (List.mem_singleton.mpr rfl)
  rw [exScan_eval] at hp
  have hpe : p = (exCand, "found") := List.mem_singleton.mp hp
  subst hpe
  exact ⟨hconf, hlocs, htimes⟩

theorem C3_witness :
    exItemWithComb.combined_embedding = some [1, 0] ∧
    (find_similar_items exSvcOk 5 exItemWithComb "lost" exDb2 none (7/10) 10
      true true).1 = Except.ok (((scored_matches exSvcOk 5 exItemWithComb
        [1, 0] "lost" none (7/10) true true exDb2).insertionSort
          byConfidence).take 10) ∧
    (((scored_matches exSvcOk 5 exItemWithComb [1, 0] "lost" none (7/10) true
      true exDb2).insertionSort byConfidence).take 10).length ≤ 10 ∧
    search_by_text_embedding exSvcOk [1, 0] exDb2 none none (7/10) 10 =
      ((text_scored_matches exSvcOk [1, 0] none none (7/10)
        exDb2).insertionSort bySimilarity).take 10 ∧
    (search_by_text_embedding exSvcOk [1, 0] exDb2 none none (7/10) 10).length ≤ 10 ∧
    search_by_image_embedding exSvcOk [1, 0] exDb2 none none (7/10) 10 =
      ((image_scored_matches exSvcOk [1, 0] none none (7/10)
        exDb2).insertionSort bySimilarity).take 10 ∧
    (search_by_image_embedding exSvcOk [1, 0] exDb2 none none (7/10) 10).length ≤ 10 :=
  ⟨rfl,
   (C3_filter_sort_truncate exSvcOk 5 exItemWithComb [1, 0] "lost" none (7/10)
     10 true true exDb2 none none rfl).1.1,
   (C3_filter_sort_truncate exSvcOk 5 exItemWithComb [1, 0] "lost" none (7/10)
     10 true true exDb2 none none rfl).1.2.2.2.2,
   (C3_filter_sort_truncate exSvcOk 5 exItemWithComb [1, 0] "lost" none (7/10)
     10 true true exDb2 none none rfl).2.1.1,
   (C3_filter_sort_truncate exSvcOk 5 exItemWithComb [1, 0] "lost" none (7/10)
     10 true true exDb2 none none rfl).2.1.2.2.2.2,
   (C3_filter_sort_truncate exSvcOk 5 exItemWithComb [1, 0] "lost" none (7/10)
     10 true true exDb2 none none rfl).2.2.1,
   (C3_filter_sort_truncate exSvcOk 5 exItemWithComb [1, 0] "lost" none (7/10)
     10 true true exDb2 none none rfl).2.2.2.2.2.2⟩

theorem C7_witness :
    ((exCand, "found") ∈ scanned_candidates exItemWithComb "lost" none exDb2 ↔
      ((("found" = "lost" ∧ exCand ∈ exDb2.lost) ∨
        ("found" = "found" ∧ exCand ∈ exDb2.found)) ∧
       exCand.status = "active" ∧ exCand.combined_embedding.isSome = true ∧
       ((none : Option String) = some "found" ∨
        ((none : Option String) = none ∧ "found" = opposite_variant "lost")) ∧
       ¬("found" = "lost" ∧ exCand.id = exItemWithComb.id))) :=
  C7_candidate_population exItemWithComb "lost" none exDb2 (Or.inl rfl)
    (Or.inl rfl) exCand "found"
